import Mathlib

/-!
Verification of the aw-watcher-afk core: the Settings resolver, the AFK
heartbeat state machine (`AFKWatcher.heartbeat_loop` in
`src/aw_watcher_afk/afk.py`), and the SSH early-exit in
`src/aw_watcher_afk/__main__.py`.

Seconds and timestamps are modelled as rationals (the Python code uses
floats and `datetime`/`timedelta` arithmetic; only ordering, subtraction
and addition of durations are used, which `Rat` models exactly).
-/

namespace AwWatcherAfk

/-- `td1ms = timedelta(milliseconds=1)` from afk.py, as a duration in seconds. -/
def td1ms : Rat := 1 / 1000

/-- Python truthiness of an `Optional[float]`: `None`, `0` and `0.0` are falsy. -/
def pyOrRat (override : Option Rat) (dflt : Rat) : Rat :=
  match override with
  | none => dflt
  | some x => if x = 0 then dflt else x

/-- The `timeout` / `poll_time` entries of the config section consumed by
`Settings.__init__`. -/
structure ConfigSection where
  timeout : Rat
  poll_time : Rat
  deriving Repr, DecidableEq

/-- The failure of `assert self.timeout >= self.poll_time` in
`Settings.__init__` (named `InvalidConfiguration` in the spec's taxonomy). -/
inductive SettingsError where
  | InvalidConfiguration
  deriving Repr, DecidableEq

/-- Resolved settings, fields as in the Python `Settings` class. -/
structure Settings where
  timeout : Rat
  poll_time : Rat
  deriving Repr, DecidableEq

/-- `Settings.__init__(config_section, timeout, poll_time)`:
`self.timeout = timeout or config_section["timeout"]`,
`self.poll_time = poll_time or config_section["poll_time"]`,
then `assert self.timeout >= self.poll_time`. -/
def Settings.resolve (config_section : ConfigSection)
    (timeout poll_time : Option Rat) : Except SettingsError Settings :=
  let t := pyOrRat timeout config_section.timeout
  let p := pyOrRat poll_time config_section.poll_time
  if t ≥ p then Except.ok ⟨t, p⟩ else Except.error SettingsError.InvalidConfiguration

/-- An `aw_core.models.Event` as constructed in `AFKWatcher.ping`:
`Event(timestamp=timestamp, duration=duration, data={"status": ...})`. -/
structure Event where
  timestamp : Rat
  duration : Rat
  status : String
  deriving Repr, DecidableEq

/-- One `self.client.heartbeat(self.bucketname, e, pulsetime=..., queued=True)`
call as observed by the store client. -/
structure HeartbeatCall where
  bucket : String
  event : Event
  pulsetime : Rat
  queued : Bool
  deriving Repr, DecidableEq

/-- `AFKWatcher.ping(afk, timestamp, duration=0)`: builds the event with
`status = "afk" if afk else "not-afk"` and sends it with
`pulsetime = self.settings.timeout + self.settings.poll_time`, `queued=True`. -/
def ping (settings : Settings) (bucketname : String)
    (afk : Bool) (timestamp : Rat) (duration : Rat) : HeartbeatCall :=
  { bucket := bucketname
    event := { timestamp := timestamp
               duration := duration
               status := if afk then "afk" else "not-afk" }
    pulsetime := settings.timeout + settings.poll_time
    queued := true }

/-- The environment of one iteration of `heartbeat_loop`:
`parentDead` is `system in ["Darwin", "Linux"] and os.getppid() == 1`;
`now` is `datetime.now(timezone.utc)` (seconds on an absolute scale);
`seconds_since_input` is the value returned by `seconds_since_last_input()`;
`interruptAt = some k` models a `KeyboardInterrupt` delivered during the tick
after `k` of the tick's heartbeats were sent (`none`: no interrupt). -/
structure TickInput where
  parentDead : Bool
  now : Rat
  seconds_since_input : Rat
  interruptAt : Option Nat
  deriving Repr, DecidableEq

/-- The heartbeats one uninterrupted iteration of `heartbeat_loop` sends,
given the current `afk` flag; mirrors the four branches of the loop body.
Note the first ping of each transition branch is made *before* the `afk`
flag is reassigned, so it carries the old state's status. -/
def tickPings (settings : Settings) (bucketname : String)
    (afk : Bool) (inp : TickInput) : List HeartbeatCall :=
  let last_input := inp.now - inp.seconds_since_input
  if afk ∧ inp.seconds_since_input < settings.timeout then
    [ping settings bucketname afk last_input 0,
     ping settings bucketname false (last_input + td1ms) 0]
  else if ¬afk ∧ inp.seconds_since_input ≥ settings.timeout then
    [ping settings bucketname afk last_input 0,
     ping settings bucketname true (last_input + td1ms) inp.seconds_since_input]
  else if afk then
    [ping settings bucketname afk (last_input + td1ms) inp.seconds_since_input]
  else
    [ping settings bucketname afk last_input 0]

/-- The value of the `afk` flag after one uninterrupted iteration. -/
def tickAfk (settings : Settings) (afk : Bool) (inp : TickInput) : Bool :=
  if afk ∧ inp.seconds_since_input < settings.timeout then false
  else if ¬afk ∧ inp.seconds_since_input ≥ settings.timeout then true
  else afk

/-- One iteration of `heartbeat_loop`: returns the heartbeats sent, the new
`afk` flag, and whether the loop continues. The parent-death pre-check comes
before anything else and `break`s without any store call; a
`KeyboardInterrupt` after `k` heartbeats is caught by the `except` clause and
`break`s, so only the first `k` heartbeats of the tick were sent. -/
def tickStep (settings : Settings) (bucketname : String)
    (afk : Bool) (inp : TickInput) : List HeartbeatCall × Bool × Bool :=
  if inp.parentDead then
    ([], afk, false)
  else
    match inp.interruptAt with
    | none => (tickPings settings bucketname afk inp,
               tickAfk settings afk inp, true)
    | some k => ((tickPings settings bucketname afk inp).take k, afk, false)

/-- `heartbeat_loop` from a given `afk` flag, observed over a finite list of
tick environments (the Python loop is unbounded; a finite input list models a
finite observation of it). Returns the full sequence of heartbeat calls. -/
def loopFrom (settings : Settings) (bucketname : String) :
    Bool → List TickInput → List HeartbeatCall
  | _, [] => []
  | afk, inp :: rest =>
      let step := tickStep settings bucketname afk inp
      step.1 ++ (if step.2.2 then loopFrom settings bucketname step.2.1 rest else [])

/-- `AFKWatcher.heartbeat_loop`: starts with `afk = False`. -/
def heartbeat_loop (settings : Settings) (bucketname : String)
    (inputs : List TickInput) : List HeartbeatCall :=
  loopFrom settings bucketname false inputs

/-- `self.bucketname = "{}-afk_{}".format(username, self.client.client_hostname)`
from `AFKWatcher.__init__`. -/
def bucketname (username client_hostname : String) : String :=
  username ++ "-afk_" ++ client_hostname

/-- A call made to the store client during `AFKWatcher.run`. -/
inductive StoreCall where
  | create_bucket (id : String) (eventtype : String) (queued : Bool)
  | heartbeat (call : HeartbeatCall)
  deriving Repr, DecidableEq

/-- The bucket id a store call addresses. -/
def StoreCall.bucket : StoreCall → String
  | StoreCall.create_bucket id _ _ => id
  | StoreCall.heartbeat call => call.bucket

/-- `AFKWatcher.run` after `wait_for_start()`: one
`create_bucket(self.bucketname, "afkstatus", queued=True)` call, then the
heartbeat loop, every call using the `bucketname` computed at construction. -/
def run (settings : Settings) (username client_hostname : String)
    (inputs : List TickInput) : List StoreCall :=
  let b := bucketname username client_hostname
  StoreCall.create_bucket b "afkstatus" true ::
    (heartbeat_loop settings b inputs).map StoreCall.heartbeat

/-- The `SSH_CLIENT` / `SSH_TTY` entries of the process environment
(`none`: unset). -/
structure Env where
  SSH_CLIENT : Option String
  SSH_TTY : Option String
  deriving Repr, DecidableEq

/-- Python truthiness of `os.environ.get(...)`: `None` and `""` are falsy. -/
def truthyStr (o : Option String) : Bool :=
  match o with
  | none => false
  | some s => s ≠ ""

/-- `running_over_ssh()`:
`bool(os.environ.get("SSH_CLIENT") or os.environ.get("SSH_TTY"))`. -/
def running_over_ssh (env : Env) : Bool :=
  truthyStr env.SSH_CLIENT || truthyStr env.SSH_TTY

/-- The observable outcome of `main()` in `__main__.py`. -/
inductive MainResult where
  | exited (code : Nat)
  | crashed
  | ran (calls : List StoreCall)
  deriving Repr, DecidableEq

/-- `main()`: after `parse_args()`, exits with code 0 when
`running_over_ssh()`; otherwise constructs the watcher (resolving Settings,
which may fail the assertion) and runs it. -/
def main (env : Env) (config_section : ConfigSection)
    (timeout poll_time : Option Rat) (username client_hostname : String)
    (inputs : List TickInput) : MainResult :=
  if running_over_ssh env then
    MainResult.exited 0
  else
    match Settings.resolve config_section timeout poll_time with
    | Except.error _ => MainResult.crashed
    | Except.ok st => MainResult.ran (run st username client_hostname inputs)

/-- Observable fields of a heartbeat: (status, timestamp, duration). -/
def obs (calls : List HeartbeatCall) : List (String × Rat × Rat) :=
  calls.map (fun c => (c.event.status, c.event.timestamp, c.event.duration))

end AwWatcherAfk

namespace AwWatcherAfk

/-! ### Helper lemmas -/

theorem tickPings_fields (s : Settings) (b : String) (afk : Bool) (inp : TickInput) :
    ∀ c ∈ tickPings s b afk inp,
      c.pulsetime = s.timeout + s.poll_time ∧ c.bucket = b := by
  intro c hc
  unfold tickPings at hc
  split_ifs at hc <;> simp at hc <;>
    rcases hc with rfl | rfl <;> exact ⟨rfl, rfl⟩

theorem tickStep_fields (s : Settings) (b : String) (afk : Bool) (inp : TickInput) :
    ∀ c ∈ (tickStep s b afk inp).1,
      c.pulsetime = s.timeout + s.poll_time ∧ c.bucket = b := by
  intro c hc
  unfold tickStep at hc
  split_ifs at hc
  · simp at hc
  · rcases hint : inp.interruptAt with _ | k <;> rw [hint] at hc
    · exact tickPings_fields s b afk inp c hc
    · exact tickPings_fields s b afk inp c (List.take_subset k _ hc)

theorem loopFrom_fields (s : Settings) (b : String) :
    ∀ (inputs : List TickInput) (afk : Bool), ∀ c ∈ loopFrom s b afk inputs,
      c.pulsetime = s.timeout + s.poll_time ∧ c.bucket = b := by
  intro inputs
  induction inputs with
  | nil => intro afk c hc; simp [loopFrom] at hc
  | cons inp rest ih =>
      intro afk c hc
      rw [loopFrom] at hc
      rcases List.mem_append.1 hc with h | h
      · exact tickStep_fields s b afk inp c h
      · split_ifs at h
        · exact ih _ c h
        · simp at h

/-! ### C1: the AFK → NOT_AFK transition tick -/

/-- C1 counterexample: with `timeout = 10`, in state AFK, on a tick with
`seconds_since_input = 3` (`now = 100`, so `last_input = 97`), the first
heartbeat has status `"afk"` (the flag is still set when the first ping is
made), not `"not-afk"` as the claim states; the second has `"not-afk"`. -/
theorem C1_counterexample :
    obs (tickPings ⟨10, 5⟩ "b" true ⟨false, 100, 3, none⟩)
        ≠ [("not-afk", 97, 0), ("not-afk", 97 + td1ms, 0)] ∧
    obs (tickPings ⟨10, 5⟩ "b" true ⟨false, 100, 3, none⟩)
        = [("afk", 97, 0), ("not-afk", 97 + td1ms, 0)] := by
  have heq : obs (tickPings ⟨10, 5⟩ "b" true ⟨false, 100, 3, none⟩)
      = [("afk", 97, 0), ("not-afk", 97 + td1ms, 0)] := by
    simp [tickPings, ping, obs, td1ms]
    norm_num
  refine ⟨?_, heq⟩
  rw [heq]
  intro h
  simp at h

/-- C1 (amended): on a tick where the state is AFK and
`seconds_since_input < timeout`, the loop transitions to NOT_AFK and emits
exactly two heartbeats: (a) status `"afk"` (the *old* state: the first ping is
sent before the flag is reassigned) at timestamp `last_input` with duration 0,
then (b) status `"not-afk"` at `last_input + 1ms` with duration 0. -/
theorem C1_corrected (s : Settings) (b : String) (inp : TickInput)
    (hpd : inp.parentDead = false) (hint : inp.interruptAt = none)
    (h : inp.seconds_since_input < s.timeout) :
    tickStep s b true inp =
      ([⟨b, ⟨inp.now - inp.seconds_since_input, 0, "afk"⟩,
          s.timeout + s.poll_time, true⟩,
        ⟨b, ⟨inp.now - inp.seconds_since_input + td1ms, 0, "not-afk"⟩,
          s.timeout + s.poll_time, true⟩], false, true) := by
  simp [tickStep, hpd, hint, tickPings, tickAfk, ping, h]

/-- Witness for `C1_corrected` at a concrete input. -/
theorem C1_corrected_witness :
    tickStep ⟨10, 5⟩ "b" true ⟨false, 100, 3, none⟩ =
      ([⟨"b", ⟨(100 : Rat) - 3, 0, "afk"⟩, (10 : Rat) + 5, true⟩,
        ⟨"b", ⟨(100 : Rat) - 3 + td1ms, 0, "not-afk"⟩, (10 : Rat) + 5, true⟩],
       false, true) :=
  C1_corrected ⟨10, 5⟩ "b" ⟨false, 100, 3, none⟩ rfl rfl (by norm_num)

/-! ### C2: the NOT_AFK → AFK transition tick -/

/-- C2 counterexample: with `timeout = 10`, in state NOT_AFK, on a tick with
`seconds_since_input = 10` (`now = 300`, so `last_input = 290`), the first
heartbeat has status `"not-afk"` (the flag is still clear when the first ping
is made), not `"afk"` as the claim states; the second has `"afk"`. -/
theorem C2_counterexample :
    obs (tickPings ⟨10, 5⟩ "b" false ⟨false, 300, 10, none⟩)
        ≠ [("afk", 290, 0), ("afk", 290 + td1ms, 10)] ∧
    obs (tickPings ⟨10, 5⟩ "b" false ⟨false, 300, 10, none⟩)
        = [("not-afk", 290, 0), ("afk", 290 + td1ms, 10)] := by
  have heq : obs (tickPings ⟨10, 5⟩ "b" false ⟨false, 300, 10, none⟩)
      = [("not-afk", 290, 0), ("afk", 290 + td1ms, 10)] := by
    simp [tickPings, ping, obs, td1ms]
    norm_num
  refine ⟨?_, heq⟩
  rw [heq]
  intro h
  simp at h

/-- C2 (amended): on a tick where the state is NOT_AFK and
`seconds_since_input >= timeout`, the loop transitions to AFK and emits
exactly two heartbeats: (a) status `"not-afk"` (the *old* state: the first
ping is sent before the flag is reassigned) at timestamp `last_input` with
duration 0, then (b) status `"afk"` at `last_input + 1ms` with duration
`seconds_since_input`. -/
theorem C2_corrected (s : Settings) (b : String) (inp : TickInput)
    (hpd : inp.parentDead = false) (hint : inp.interruptAt = none)
    (h : s.timeout ≤ inp.seconds_since_input) :
    tickStep s b false inp =
      ([⟨b, ⟨inp.now - inp.seconds_since_input, 0, "not-afk"⟩,
          s.timeout + s.poll_time, true⟩,
        ⟨b, ⟨inp.now - inp.seconds_since_input + td1ms, inp.seconds_since_input,
            "afk"⟩,
          s.timeout + s.poll_time, true⟩], true, true) := by
  simp [tickStep, hpd, hint, tickPings, tickAfk, ping, h]

/-- Witness for `C2_corrected` at a concrete input. -/
theorem C2_corrected_witness :
    tickStep ⟨10, 5⟩ "b" false ⟨false, 300, 10, none⟩ =
      ([⟨"b", ⟨(300 : Rat) - 10, 0, "not-afk"⟩, (10 : Rat) + 5, true⟩,
        ⟨"b", ⟨(300 : Rat) - 10 + td1ms, 10, "afk"⟩, (10 : Rat) + 5, true⟩],
       true, true) :=
  C2_corrected ⟨10, 5⟩ "b" ⟨false, 300, 10, none⟩ rfl rfl (by norm_num)

/-! ### C3: initial state and no-change ticks -/

/-- C3: the loop starts with `afk = False` (state NOT_AFK), and a no-change
tick emits exactly one heartbeat: staying AFK (`seconds_since_input >=
timeout`) it is status `"afk"`, timestamp `last_input + 1ms`, duration
`seconds_since_input`; staying NOT_AFK (`seconds_since_input < timeout`) it
is status `"not-afk"`, timestamp `last_input`, duration 0. -/
theorem C3_initial_and_no_change (s : Settings) (b : String) (afk : Bool)
    (inp : TickInput) (inputs : List TickInput)
    (hpd : inp.parentDead = false) (hint : inp.interruptAt = none) :
    heartbeat_loop s b inputs = loopFrom s b false inputs ∧
    (afk = true → s.timeout ≤ inp.seconds_since_input →
      tickStep s b afk inp =
        ([⟨b, ⟨inp.now - inp.seconds_since_input + td1ms, inp.seconds_since_input,
            "afk"⟩, s.timeout + s.poll_time, true⟩], true, true)) ∧
    (afk = false → inp.seconds_since_input < s.timeout →
      tickStep s b afk inp =
        ([⟨b, ⟨inp.now - inp.seconds_since_input, 0, "not-afk"⟩,
            s.timeout + s.poll_time, true⟩], false, true)) := by
  refine ⟨rfl, ?_, ?_⟩
  · rintro rfl h
    simp [tickStep, hpd, hint, tickPings, tickAfk, ping, h, not_lt.mpr h]
  · rintro rfl h
    simp [tickStep, hpd, hint, tickPings, tickAfk, ping, h, not_le.mpr h]

/-- Witness for `C3_initial_and_no_change` at a concrete input. -/
theorem C3_initial_and_no_change_witness :
    tickStep ⟨10, 5⟩ "b" true ⟨false, 400, 11, none⟩ =
      ([⟨"b", ⟨(400 : Rat) - 11 + td1ms, 11, "afk"⟩, (10 : Rat) + 5, true⟩],
       true, true) :=
  (C3_initial_and_no_change ⟨10, 5⟩ "b" true ⟨false, 400, 11, none⟩ [] rfl
    rfl).2.1 rfl (by norm_num)

/-! ### C4: the Settings invariant check -/

/-- C4: Settings resolution fails with `InvalidConfiguration` exactly when the
resolved `timeout` is smaller than the resolved `poll_time`, and returns the
Settings value with the resolved fields exactly when it is not. -/
theorem C4_settings_resolution (config_section : ConfigSection)
    (timeout poll_time : Option Rat) :
    (Settings.resolve config_section timeout poll_time
        = Except.error SettingsError.InvalidConfiguration
      ↔ pyOrRat timeout config_section.timeout
          < pyOrRat poll_time config_section.poll_time) ∧
    (Settings.resolve config_section timeout poll_time
        = Except.ok ⟨pyOrRat timeout config_section.timeout,
                     pyOrRat poll_time config_section.poll_time⟩
      ↔ pyOrRat poll_time config_section.poll_time
          ≤ pyOrRat timeout config_section.timeout) := by
  unfold Settings.resolve
  dsimp only
  split_ifs with h
  · simp [h, not_lt.mpr h]
  · simp [lt_of_not_ge h, h]

/-! ### C5: override resolution uses Python truthiness -/

/-- C5 counterexample: with `config = {timeout: 5, poll_time: 1}` and an
explicit timeout override of `0`, resolution succeeds with `timeout = 5`
(Python `or` discards a falsy override), not the provided override `0`. -/
theorem C5_counterexample :
    Settings.resolve ⟨5, 1⟩ (some 0) none = Except.ok ⟨5, 1⟩ ∧
    (Settings.mk 5 1).timeout ≠ (0 : Rat) := by
  constructor
  · norm_num [Settings.resolve, pyOrRat]
  · norm_num

/-- C5 (amended): when resolution succeeds, the resolved `timeout` equals the
override when a *truthy* (non-`None`, non-zero) override is provided and
`config.timeout` otherwise, and likewise for `poll_time`: a zero override
falls back to config, because `timeout or config["timeout"]` uses Python
truthiness. -/
theorem C5_corrected (config_section : ConfigSection)
    (timeout poll_time : Option Rat) (st : Settings)
    (h : Settings.resolve config_section timeout poll_time = Except.ok st) :
    st.timeout = pyOrRat timeout config_section.timeout ∧
    st.poll_time = pyOrRat poll_time config_section.poll_time := by
  unfold Settings.resolve at h
  dsimp only at h
  split_ifs at h with hge
  rw [Except.ok.injEq] at h
  subst h
  exact ⟨rfl, rfl⟩

/-- Witness for `C5_corrected` at a concrete input. -/
theorem C5_corrected_witness :
    (Settings.mk 5 1).timeout = pyOrRat (some 0) 5 ∧
    (Settings.mk 5 1).poll_time = pyOrRat none 1 :=
  C5_corrected ⟨5, 1⟩ (some 0) none ⟨5, 1⟩ (by norm_num [Settings.resolve, pyOrRat])

/-! ### C6: the pulsetime invariant -/

/-- C6: every heartbeat sent during the loop's lifetime (transition or
no-change, either event of a transition pair) carries
`pulsetime = timeout + poll_time` from the resolved Settings. -/
theorem C6_pulsetime_invariant (s : Settings) (b : String)
    (inputs : List TickInput) :
    (heartbeat_loop s b inputs).all
      (fun c => c.pulsetime == s.timeout + s.poll_time) = true := by
  rw [List.all_eq_true]
  intro c hc
  unfold heartbeat_loop at hc
  exact beq_iff_eq.mpr (loopFrom_fields s b inputs false c hc).1

/-! ### C7: the bucket identity -/

/-- C7: the bucket identity is `"{username}-afk_{client_hostname}"`, and every
store call of `run` — the `create_bucket` call and every heartbeat — addresses
exactly that bucket string. -/
theorem C7_bucket_identity (s : Settings) (u hn : String)
    (inputs : List TickInput) :
    bucketname u hn = u ++ "-afk_" ++ hn ∧
    (run s u hn inputs).all
      (fun c => StoreCall.bucket c == bucketname u hn) = true := by
  refine ⟨rfl, ?_⟩
  rw [List.all_eq_true]
  intro c hc
  unfold run at hc
  dsimp only at hc
  rcases List.mem_cons.1 hc with rfl | hmem
  · exact beq_iff_eq.mpr rfl
  · rcases List.mem_map.1 hmem with ⟨hb, hhb, rfl⟩
    unfold heartbeat_loop at hhb
    exact beq_iff_eq.mpr (loopFrom_fields s (bucketname u hn) inputs false hb hhb).2

/-! ### C8: graceful shutdown -/

/-- C8: when the parent-death condition holds at the start of a tick, the loop
exits with no store call at all in that tick and no further tick processed;
when a keyboard interrupt arrives during a tick after `k` heartbeats were
sent, the loop exits having sent only those first `k` heartbeats of that tick
and nothing afterwards. -/
theorem C8_graceful_exit (s : Settings) (b : String) (afk : Bool)
    (inp : TickInput) (rest : List TickInput) :
    (inp.parentDead = true → loopFrom s b afk (inp :: rest) = []) ∧
    (inp.parentDead = false → ∀ k, inp.interruptAt = some k →
      loopFrom s b afk (inp :: rest) = (tickPings s b afk inp).take k) := by
  constructor
  · intro hpd
    rw [loopFrom]
    simp [tickStep, hpd]
  · intro hpd k hk
    rw [loopFrom]
    simp [tickStep, hpd, hk]

/-- Witness for `C8_graceful_exit` at concrete inputs: a parent-death tick
emits nothing; an interrupt after 1 of the tick's heartbeats leaves only that
prefix, and in both cases the next tick is never processed. -/
theorem C8_graceful_exit_witness :
    loopFrom ⟨10, 5⟩ "b" false [⟨true, 100, 3, none⟩, ⟨false, 200, 4, none⟩]
        = [] ∧
    loopFrom ⟨10, 5⟩ "b" false [⟨false, 100, 3, some 1⟩, ⟨false, 200, 4, none⟩]
        = (tickPings ⟨10, 5⟩ "b" false ⟨false, 100, 3, some 1⟩).take 1 :=
  ⟨(C8_graceful_exit ⟨10, 5⟩ "b" false ⟨true, 100, 3, none⟩
      [⟨false, 200, 4, none⟩]).1 rfl,
   (C8_graceful_exit ⟨10, 5⟩ "b" false ⟨false, 100, 3, some 1⟩
      [⟨false, 200, 4, none⟩]).2 rfl 1 rfl⟩

/-! ### C9: the afk flag tracks the threshold -/

/-- C9: after every completed (non-interrupted) tick, the `afk` flag equals
`seconds_since_input >= timeout` for the sample read in that tick, whatever
the flag was before. -/
theorem C9_afk_flag_invariant (s : Settings) (b : String) (afk : Bool)
    (inp : TickInput) (hpd : inp.parentDead = false)
    (hint : inp.interruptAt = none) :
    (tickStep s b afk inp).2.1
      = decide (s.timeout ≤ inp.seconds_since_input) := by
  simp only [tickStep, hpd, Bool.false_eq_true, if_false, hint]
  unfold tickAfk
  rcases lt_or_le inp.seconds_since_input s.timeout with h | h
  · cases afk <;> simp [h, not_le.mpr h]
  · cases afk <;> simp [h, not_lt.mpr h]

/-- Witness for `C9_afk_flag_invariant` at a concrete input. -/
theorem C9_afk_flag_invariant_witness :
    (tickStep ⟨10, 5⟩ "b" false ⟨false, 300, 10, none⟩).2.1
      = decide ((10 : Rat) ≤ 10) :=
  C9_afk_flag_invariant ⟨10, 5⟩ "b" false ⟨false, 300, 10, none⟩ rfl rfl

/-! ### C10: SSH sessions exit before the watcher is built -/

/-- C10: if `SSH_CLIENT` or `SSH_TTY` is set to a non-empty string, `main`
exits with code 0 before constructing the watcher: no settings resolution, no
bucket creation and no heartbeat happens in that run. -/
theorem C10_ssh_early_exit (env : Env) (config_section : ConfigSection)
    (timeout poll_time : Option Rat) (username client_hostname : String)
    (inputs : List TickInput) (v : String) (hv : v ≠ "")
    (h : env.SSH_CLIENT = some v ∨ env.SSH_TTY = some v) :
    main env config_section timeout poll_time username client_hostname inputs
      = MainResult.exited 0 := by
  have hssh : running_over_ssh env = true := by
    rcases h with h | h <;> simp [running_over_ssh, truthyStr, h, hv]
  simp [main, hssh]

/-- Witness for `C10_ssh_early_exit` at a concrete input. -/
theorem C10_ssh_early_exit_witness :
    main ⟨some "10.0.0.1 50000 22", none⟩ ⟨10, 5⟩ none none "u" "h" []
      = MainResult.exited 0 :=
  C10_ssh_early_exit ⟨some "10.0.0.1 50000 22", none⟩ ⟨10, 5⟩ none none "u" "h"
    [] "10.0.0.1 50000 22" (by decide) (Or.inl rfl)

end AwWatcherAfk
